import Mathlib

/-!
Shallow embedding of the Gammu SMSD ODBC backend adapter
(`src/smsd/services/odbc.c`).

The adapter translates a fixed generic SQL-backend interface onto the ODBC
call-level API.  Every external ODBC call (SQLGetData, SQLFetch,
SQLAllocHandle, ...) is modelled by an explicit oracle record holding the
return code and data that call would produce; each adapter function becomes a
pure Lean function of its oracle and of the explicit connection state, and
additionally returns the list of log entries it emits and, where relevant, a
trace of its internal actions.
-/

/-- Severity levels of the logging sink used by the adapter
(`DEBUG_ERROR` and `DEBUG_INFO` are the only two severities in the file). -/
inductive Severity
  | error
  | info
  deriving DecidableEq, Repr

/-- One entry handed to the logging sink: a severity and a formatted message. -/
structure LogEntry where
  sev : Severity
  msg : String
  deriving DecidableEq, Repr

/-- One ODBC diagnostic record as retrieved by `SQLGetDiagRec`:
state code, native error code and message text. -/
structure DiagRec where
  state : String
  native : Int
  text : String
  deriving DecidableEq, Repr

/-- ODBC return code `SQL_SUCCESS` (sql.h). -/
def SQL_SUCCESS : Int := 0

/-- ODBC return code `SQL_SUCCESS_WITH_INFO` (sql.h). -/
def SQL_SUCCESS_WITH_INFO : Int := 1

/-- ODBC return code `SQL_NO_DATA` (sql.h). -/
def SQL_NO_DATA : Int := 100

/-- ODBC return code `SQL_ERROR` (sql.h). -/
def SQL_ERROR : Int := -1

/-- ODBC length sentinel `SQL_NULL_DATA` (sql.h). -/
def SQL_NULL_DATA : Int := -1

/-- `SQL_SUCCEEDED(rc)` from sql.h is `((rc) & (~1)) == 0`,
i.e. the code is `SQL_SUCCESS` or `SQL_SUCCESS_WITH_INFO`. -/
def SQL_SUCCEEDED (r : Int) : Bool :=
  r == SQL_SUCCESS || r == SQL_SUCCESS_WITH_INFO

/-- Result status of `SMSDODBC_Connect` and `SMSDODBC_Query` (sql-core.h). -/
inductive SQL_Error
  | SQL_OK
  | SQL_FAIL
  deriving DecidableEq, Repr

/-- `SMSDODBC_LogError` (odbc.c lines 28-45): logs the caller's message at
error severity, then loops over `SQLGetDiagRec` and logs every available
diagnostic record (state, one-based sequence number, native code, text) at
error severity.  `diags` is the list of records the driver reports for the
handle. -/
def SMSDODBC_LogError (message : String) (diags : List DiagRec) : List LogEntry :=
  LogEntry.mk Severity.error (message ++ ", ODBC diagnostics:") ::
    diags.enum.map (fun p =>
      LogEntry.mk Severity.error
        (p.2.state ++ ":" ++ toString (p.1 + 1) ++ ":" ++ toString p.2.native ++ ":" ++ p.2.text))

/-- Oracle for one `SQLGetData(..., SQL_C_SLONG, ...)` call: the return code
and, when it succeeds, the fetched `SQLINTEGER` value. -/
structure FetchNum where
  ret : Int
  value : Int
  deriving DecidableEq, Repr

/-- `SMSDODBC_GetNumber` (odbc.c lines 47-58): fetches the field as a signed
long; on failure logs diagnostics and returns the `-1` sentinel, otherwise
returns the fetched value (widened to `long long`). -/
def SMSDODBC_GetNumber (f : FetchNum) (diags : List DiagRec) : Int × List LogEntry :=
  if SQL_SUCCEEDED f.ret then (f.value, [])
  else (-1, SMSDODBC_LogError "SQLGetData(long) failed" diags)

/-- The fields of a fetched `SQL_TIMESTAMP_STRUCT` (sqlext.h):
calendar year, 1-based month, day of month, hour, minute, second. -/
structure SqlTimestampStruct where
  year : Int
  month : Int
  day : Int
  hour : Int
  minute : Int
  second : Int
  deriving DecidableEq, Repr

/-- Days from the Unix epoch (1970-01-01) to the civil date `y-m-d`,
month 1-based; the standard civil-from-days computation, valid for any
integer year and in the day argument linear, so out-of-range days shift the
date accordingly. -/
def daysFromCivil (y m d : Int) : Int :=
  let y2 := if m ≤ 2 then y - 1 else y
  let era := y2.fdiv 400
  let yoe := y2 - era * 400
  let mp := (m + 9).emod 12
  let doy := (153 * mp + 2).fdiv 5 + d - 1
  let doe := yoe * 365 + yoe.fdiv 4 - yoe.fdiv 100 + doy
  era * 146097 + doe - 719468

/-- Modelled from the spec: the C library `mktime` is an external collaborator
(not part of this repository).  Per the C standard it reads `tm_year` as years
since 1900 and `tm_mon` as months since January (0-11), normalising
out-of-range fields, and converts to seconds since the epoch in local time.
The process-local timezone offset is taken as zero here; every comparison
proved below is independent of a constant offset. -/
def mktimeModel (tmYear tmMon tmMday tmHour tmMin tmSec : Int) : Int :=
  let y := 1900 + tmYear + tmMon.fdiv 12
  let m := tmMon.emod 12
  86400 * daysFromCivil y (m + 1) tmMday + 3600 * tmHour + 60 * tmMin + tmSec

/-- The local time value corresponding to the calendar fields of a fetched
timestamp, as the claims phrase it: seconds since the epoch of
`year-month-day hour:minute:second` with `month` the 1-based calendar month
(timezone offset taken as zero, as in `mktimeModel`). -/
def civilEpoch (ts : SqlTimestampStruct) : Int :=
  86400 * daysFromCivil ts.year ts.month ts.day +
    3600 * ts.hour + 60 * ts.minute + ts.second

/-- Oracle for one `SQLGetData(..., SQL_C_TYPE_TIMESTAMP, ...)` call. -/
structure FetchDate where
  ret : Int
  ts : SqlTimestampStruct
  deriving DecidableEq, Repr

/-- `SMSDODBC_GetDate` (odbc.c lines 60-93): fetches the field as a timestamp
structure; on failure logs diagnostics and returns `-1`; on success copies
`sqltime.year` into `tm_year`, `sqltime.month` into `tm_mon`, and the
remaining fields unchanged, and returns `mktime` of that structure. -/
def SMSDODBC_GetDate (f : FetchDate) (diags : List DiagRec) : Int × List LogEntry :=
  if SQL_SUCCEEDED f.ret then
    (mktimeModel f.ts.year f.ts.month f.ts.day f.ts.hour f.ts.minute f.ts.second, [])
  else (-1, SMSDODBC_LogError "SQLGetData(timestamp) failed" diags)

/-- `SMSD_ODBC_MAX_RETURN_STRINGS` (sql-core.h, not under src; the value does
not matter to any claim — `SMSDODBC_Connect` and `SMSDODBC_Free` in odbc.c
treat exactly the slots `0 .. SMSD_ODBC_MAX_RETURN_STRINGS - 1` as the
return-string buffer array). -/
def SMSD_ODBC_MAX_RETURN_STRINGS : Nat := 80

/-- Connection-owned state: the per-field return-string buffer array
`Config->conn.odbc.retstr`.  Slot `i` holds `some s` when a buffer holding
string `s` is allocated for field `i` and `none` when the slot is the null
pointer.  Indices `≥ SMSD_ODBC_MAX_RETURN_STRINGS` lie outside the array
that Connect initialises and Free releases. -/
structure OdbcConn where
  retstr : Nat → Option String

/-- Oracle for `SMSDODBC_GetString`: the return code and reported length of
the length probe `SQLGetData(..., NULL, 0, &size)`, whether
`malloc`/`realloc` succeeds, and the return code and data of the second
`SQLGetData` call that fills the buffer. -/
structure FetchStr where
  probeRet : Int
  probeSize : Int
  allocOk : Bool
  fetchRet : Int
  fetchStr : String
  deriving DecidableEq, Repr

/-- Output of `SMSDODBC_GetString`: the returned pointer (`none` for NULL),
the updated connection state, the log entries emitted, and the list of
`retstr` slot indices the call read or wrote. -/
structure GetStringOut where
  result : Option String
  conn : OdbcConn
  logs : List LogEntry
  touched : List Nat

/-- `SMSDODBC_GetString` (odbc.c lines 95-139).  The guard is the source's
`field > SMSD_ODBC_MAX_RETURN_STRINGS` (strict greater-than).  Past the
guard: length probe (failure logs and returns NULL), `SQL_NULL_DATA` returns
NULL with an info log, then the call reads slot `field` to choose
`malloc`/`realloc`, writes the slot (a failed allocation stores the null
pointer; after a failed data fetch the buffer contents are unspecified,
modelled as the empty string), and on success stores and returns the fetched
string. -/
def SMSDODBC_GetString (conn : OdbcConn) (field : Nat) (f : FetchStr)
    (diags : List DiagRec) : GetStringOut :=
  if field > SMSD_ODBC_MAX_RETURN_STRINGS then
    ⟨none, conn,
      [⟨Severity.error, "Field " ++ toString field ++ " returning NULL, too many fields!"⟩], []⟩
  else if SQL_SUCCEEDED f.probeRet = false then
    ⟨none, conn, SMSDODBC_LogError "SQLGetData(string,NULL) failed" diags, []⟩
  else if f.probeSize = SQL_NULL_DATA then
    ⟨none, conn, [⟨Severity.info, "Field " ++ toString field ++ " returning NULL"⟩], [field]⟩
  else if f.allocOk = false then
    ⟨none, ⟨fun i => if i = field then none else conn.retstr i⟩,
      [⟨Severity.error,
        "Field " ++ toString field ++ " returning NULL, failed to allocate memory"⟩], [field]⟩
  else if SQL_SUCCEEDED f.fetchRet = false then
    ⟨none, ⟨fun i => if i = field then some "" else conn.retstr i⟩,
      SMSDODBC_LogError "SQLGetData(string) failed" diags, [field]⟩
  else
    ⟨some f.fetchStr, ⟨fun i => if i = field then some f.fetchStr else conn.retstr i⟩,
      [⟨Severity.info,
        "Field " ++ toString field ++ " returning string"⟩], [field]⟩

/-- Modelled from the spec: the repository's generic boolean-string parser
`GSM_StringToBool` is not under src; the spec describes it as an external
utility mapping a string to a boolean per a shared convention
("1"/"true" style tokens).  A null pointer parses as false. -/
def GSM_StringToBool (s : Option String) : Bool :=
  match s with
  | none => false
  | some v => v == "1" || v == "true" || v == "yes"

/-- Output of `SMSDODBC_GetBool`: the boolean result, the updated connection
state, the log entries, and whether the string fallback path was taken. -/
structure GetBoolOut where
  result : Bool
  conn : OdbcConn
  logs : List LogEntry
  usedStringFallback : Bool

/-- `SMSDODBC_GetBool` (odbc.c lines 141-154): calls `SMSDODBC_GetNumber`;
when its result equals `-1` falls back to `SMSDODBC_GetString` and
`GSM_StringToBool`, otherwise returns the truthiness of the numeric value. -/
def SMSDODBC_GetBool (conn : OdbcConn) (field : Nat) (fn : FetchNum)
    (fs : FetchStr) (diags : List DiagRec) : GetBoolOut :=
  let n := SMSDODBC_GetNumber fn diags
  if n.1 = -1 then
    let s := SMSDODBC_GetString conn field fs diags
    ⟨GSM_StringToBool s.result, s.conn, n.2 ++ s.logs, true⟩
  else
    ⟨decide (n.1 ≠ 0), conn, n.2, false⟩

/-- Output of `SMSDODBC_Free`: the updated connection state and the list of
slot indices whose buffers the loop released. -/
structure FreeOut where
  conn : OdbcConn
  freed : List Nat

/-- `SMSDODBC_Free` (odbc.c lines 157-170): disconnects and releases handles
(external calls with no modelled effect), then for every slot
`0 .. SMSD_ODBC_MAX_RETURN_STRINGS - 1` frees a non-null buffer and resets
the slot to the null pointer. -/
def SMSDODBC_Free (conn : OdbcConn) : FreeOut :=
  ⟨⟨fun i => if i < SMSD_ODBC_MAX_RETURN_STRINGS then none else conn.retstr i⟩,
    (List.range SMSD_ODBC_MAX_RETURN_STRINGS).filter (fun i => (conn.retstr i).isSome)⟩

/-- The internal actions of `SMSDODBC_Connect`, in program order: the
return-string-array initialisation loop, then the environment-handle
allocation, the environment attribute call, the connection-handle
allocation, and the connect call. -/
inductive ConnStep
  | initRetstr
  | allocEnv
  | setEnvAttr
  | allocDbc
  | sqlConnect
  deriving DecidableEq, Repr

/-- Oracle for `SMSDODBC_Connect`: return codes of its four ODBC calls and
the diagnostic records available on the environment and connection handles. -/
structure ConnectOracle where
  allocEnvRet : Int
  setEnvRet : Int
  allocDbcRet : Int
  connectRet : Int
  envDiags : List DiagRec
  dbcDiags : List DiagRec
  deriving DecidableEq, Repr

/-- Output of `SMSDODBC_Connect`: status, updated connection state, log
entries and the trace of internal steps actually executed. -/
structure ConnectOut where
  status : SQL_Error
  conn : OdbcConn
  logs : List LogEntry
  steps : List ConnStep

/-- `SMSDODBC_Connect` (odbc.c lines 173-210): first sets every slot of the
return-string array to the null pointer, then allocates the environment
handle, sets the ODBC version attribute, allocates the connection handle and
connects; each failing step logs diagnostics and returns `SQL_FAIL`. -/
def SMSDODBC_Connect (conn : OdbcConn) (o : ConnectOracle) : ConnectOut :=
  let conn1 : OdbcConn :=
    ⟨fun i => if i < SMSD_ODBC_MAX_RETURN_STRINGS then none else conn.retstr i⟩
  if SQL_SUCCEEDED o.allocEnvRet = false then
    ⟨SQL_Error.SQL_FAIL, conn1, SMSDODBC_LogError "SQLAllocHandle(ENV) failed" o.envDiags,
      [ConnStep.initRetstr, ConnStep.allocEnv]⟩
  else if SQL_SUCCEEDED o.setEnvRet = false then
    ⟨SQL_Error.SQL_FAIL, conn1, SMSDODBC_LogError "SQLSetEnvAttr failed" o.envDiags,
      [ConnStep.initRetstr, ConnStep.allocEnv, ConnStep.setEnvAttr]⟩
  else if SQL_SUCCEEDED o.allocDbcRet = false then
    ⟨SQL_Error.SQL_FAIL, conn1, SMSDODBC_LogError "SQLAllocHandle(DBC) failed" o.envDiags,
      [ConnStep.initRetstr, ConnStep.allocEnv, ConnStep.setEnvAttr, ConnStep.allocDbc]⟩
  else if SQL_SUCCEEDED o.connectRet = false then
    ⟨SQL_Error.SQL_FAIL, conn1, SMSDODBC_LogError "SQLConnect failed" o.dbcDiags,
      [ConnStep.initRetstr, ConnStep.allocEnv, ConnStep.setEnvAttr, ConnStep.allocDbc,
        ConnStep.sqlConnect]⟩
  else
    ⟨SQL_Error.SQL_OK, conn1, [],
      [ConnStep.initRetstr, ConnStep.allocEnv, ConnStep.setEnvAttr, ConnStep.allocDbc,
        ConnStep.sqlConnect]⟩

/-- Oracle for `SMSDODBC_Query`: return codes of the statement-handle
allocation and of `SQLExecDirect`, plus the statement handle's diagnostics. -/
structure QueryOracle where
  allocRet : Int
  execRet : Int
  diags : List DiagRec
  deriving DecidableEq, Repr

/-- `SMSDODBC_Query` (odbc.c lines 212-228): allocates a statement handle
(failure returns `SQL_FAIL` with no log), executes the text directly
(success returns `SQL_OK`; failure logs diagnostics and returns `SQL_FAIL`). -/
def SMSDODBC_Query (o : QueryOracle) : SQL_Error × List LogEntry :=
  if SQL_SUCCEEDED o.allocRet = false then (SQL_Error.SQL_FAIL, [])
  else if SQL_SUCCEEDED o.execRet then (SQL_Error.SQL_OK, [])
  else (SQL_Error.SQL_FAIL, SMSDODBC_LogError "SQLExecDirect failed" o.diags)

/-- A query result as seen by `SMSDODBC_FreeResult`: whether its statement
handle has been released. -/
structure SQLResult where
  stmtFreed : Bool
  deriving DecidableEq, Repr

/-- `SMSDODBC_FreeResult` (odbc.c lines 231-234): releases the result's
statement handle and touches nothing else — in particular not the
connection state. -/
def SMSDODBC_FreeResult (conn : OdbcConn) (res : SQLResult) : OdbcConn × SQLResult :=
  (conn, { res with stmtFreed := true })

/-- `SMSDODBC_NextRow` (odbc.c lines 237-250): calls `SQLFetch`; on success
returns 1; on `SQL_NO_DATA` returns 0 with no log; on any other failure logs
diagnostics and returns 0. -/
def SMSDODBC_NextRow (fetchRet : Int) (diags : List DiagRec) : Nat × List LogEntry :=
  if SQL_SUCCEEDED fetchRet = false then
    if fetchRet ≠ SQL_NO_DATA then (0, SMSDODBC_LogError "SQLFetch failed" diags)
    else (0, [])
  else (1, [])

/-- The escaping of one character by `SMSDODBC_QuoteString`'s loop: a
double quote or backslash is preceded by a backslash, any other character is
copied as is. -/
def quoteChar (c : Char) : List Char :=
  if c = '"' ∨ c = '\\' then ['\\', c] else [c]

/-- `SMSDODBC_QuoteString` (odbc.c lines 253-271) on the character sequence
of the input string: an opening double quote, the input with every embedded
double quote and backslash escaped, and a closing double quote. -/
def SMSDODBC_QuoteString (s : List Char) : List Char :=
  '"' :: s.flatMap quoteChar ++ ['"']

/-- Stripping the surrounding quotes, as the round-trip claim words it:
drop the first and the last character. -/
def stripQuotes (l : List Char) : List Char :=
  (l.drop 1).dropLast

/-- Collapsing each backslash escape, as the round-trip claim words it: a
backslash takes the following character literally, any other character
stands for itself. -/
def unescape : List Char → List Char
  | [] => []
  | c :: rest =>
    if c = '\\' then
      match rest with
      | [] => []
      | d :: rest2 => d :: unescape rest2
    else c :: unescape rest

/-- Oracle for `SMSDODBC_SeqID`: return codes of the statement-handle
allocation, `SQLExecDirect`, `SQLFetch` and `SQLGetData`, plus the fetched
`SQLINTEGER` value. -/
structure SeqOracle where
  allocRet : Int
  execRet : Int
  fetchRet : Int
  dataRet : Int
  value : Int
  deriving DecidableEq, Repr

/-- Output of `SMSDODBC_SeqID`: the returned identifier (an
`unsigned long long`, so the fetched signed value reduced modulo `2 ^ 64`),
the query texts issued, whether the statement handle was released, and the
log entries emitted. -/
structure SeqOut where
  result : Nat
  queries : List String
  stmtFreed : Bool
  logs : List LogEntry
  deriving DecidableEq, Repr

/-- `SMSDODBC_SeqID` (odbc.c lines 274-305): allocates a statement handle
(failure returns 0), always executes the fixed text `SELECT @@IDENTITY`
ignoring the `id` hint, fetches a row and reads column 1 as a signed long;
every failure after allocation frees the statement handle and returns 0, and
the success path frees the handle and returns the value.  No path logs. -/
def SMSDODBC_SeqID (o : SeqOracle) (id : String) : SeqOut :=
  if SQL_SUCCEEDED o.allocRet = false then ⟨0, [], false, []⟩
  else if SQL_SUCCEEDED o.execRet = false then ⟨0, ["SELECT @@IDENTITY"], true, []⟩
  else if SQL_SUCCEEDED o.fetchRet = false then ⟨0, ["SELECT @@IDENTITY"], true, []⟩
  else if SQL_SUCCEEDED o.dataRet = false then ⟨0, ["SELECT @@IDENTITY"], true, []⟩
  else ⟨(o.value.emod (2 ^ 64)).toNat, ["SELECT @@IDENTITY"], true, []⟩

/-- Oracle for `SMSDODBC_AffectedRows`: the return code of `SQLRowCount` and
the reported count. -/
structure RowCountOracle where
  ret : Int
  count : Int
  deriving DecidableEq, Repr

/-- `SMSDODBC_AffectedRows` (odbc.c lines 307-318): on failure logs
diagnostics and returns 0, otherwise returns the count (as an
`unsigned long`, modelled modulo `2 ^ 64`). -/
def SMSDODBC_AffectedRows (o : RowCountOracle) (diags : List DiagRec) : Nat × List LogEntry :=
  if SQL_SUCCEEDED o.ret = false then (0, SMSDODBC_LogError "SQLRowCount failed" diags)
  else ((o.count.emod (2 ^ 64)).toNat, [])

/-! Helper lemmas shared by the claim theorems. -/

/-- Every call of `SMSDODBC_LogError` emits at least one log entry
(the caller's message line precedes the diagnostic records). -/
theorem one_le_logError_length (m : String) (d : List DiagRec) :
    1 ≤ (SMSDODBC_LogError m d).length :=
  Nat.succ_le_succ (Nat.zero_le _)

/-- Every entry `SMSDODBC_LogError` emits carries error severity. -/
theorem logError_sev (m : String) (d : List DiagRec) :
    ∀ e ∈ SMSDODBC_LogError m d, e.sev = Severity.error := by
  intro e he
  simp only [SMSDODBC_LogError, List.mem_cons, List.mem_map] at he
  rcases he with rfl | ⟨p, _, rfl⟩ <;> rfl

/-- Unfolding `unescape` on a head character that is not a backslash. -/
theorem unescape_cons_ne (c : Char) (t : List Char) (h : c ≠ '\\') :
    unescape (c :: t) = c :: unescape t := by
  rw [unescape.eq_def]
  simp [h]

/-- Unfolding `unescape` on a backslash escape. -/
theorem unescape_cons_esc (d : Char) (t : List Char) :
    unescape ('\\' :: d :: t) = d :: unescape t := by
  rw [unescape.eq_def]
  simp

/-- Dropping the opening and closing quote of `SMSDODBC_QuoteString`'s output
leaves exactly the escaped body. -/
theorem stripQuotes_quoteString (s : List Char) :
    stripQuotes (SMSDODBC_QuoteString s) = s.flatMap quoteChar := by
  simp [stripQuotes, SMSDODBC_QuoteString]

/-- Collapsing the backslash escapes of the escaped body recovers the input. -/
theorem unescape_flatMap (s : List Char) :
    unescape (s.flatMap quoteChar) = s := by
  induction s with
  | nil => rfl
  | cons c t ih =>
    by_cases hc : c = '"' ∨ c = '\\'
    · have hq : quoteChar c = ['\\', c] := by simp [quoteChar, hc]
      simp only [List.flatMap_cons, hq, List.cons_append, List.nil_append,
        unescape_cons_esc, ih]
    · have hq : quoteChar c = [c] := by simp [quoteChar, hc]
      have hcb : c ≠ '\\' := fun h => hc (Or.inr h)
      simp only [List.flatMap_cons, hq, List.cons_append, List.nil_append,
        unescape_cons_ne c _ hcb, ih]

/-! Claim theorems. -/

/-- C1: the claim says every field index beyond the return-string slot count
makes `SMSDODBC_GetString` return NULL, log a "too many fields" message, and
touch no slot.  The code's guard is `field > SMSD_ODBC_MAX_RETURN_STRINGS`,
so the index equal to `SMSD_ODBC_MAX_RETURN_STRINGS` — one past the last
slot the array has (Connect and Free manage slots
`0 .. SMSD_ODBC_MAX_RETURN_STRINGS - 1`) — passes the guard: the call reads
and writes that out-of-range slot and returns the fetched string instead of
NULL. -/
theorem SMSDODBC_GetString_max_index_touches_slot :
    ¬ SMSD_ODBC_MAX_RETURN_STRINGS < SMSD_ODBC_MAX_RETURN_STRINGS ∧
    (SMSDODBC_GetString ⟨fun _ => none⟩ SMSD_ODBC_MAX_RETURN_STRINGS
        ⟨0, 5, true, 0, "abc"⟩ []).touched = [SMSD_ODBC_MAX_RETURN_STRINGS] ∧
    (SMSDODBC_GetString ⟨fun _ => none⟩ SMSD_ODBC_MAX_RETURN_STRINGS
        ⟨0, 5, true, 0, "abc"⟩ []).result = some "abc" := by
  refine ⟨by decide, by decide, by decide⟩

/-- C2: `SMSDODBC_NextRow` returns 1 on a successful fetch, returns 0 with no
log entry when the fetch reports `SQL_NO_DATA` (cursor exhausted), and
returns 0 with at least one log entry on any other fetch failure. -/
theorem SMSDODBC_NextRow_spec (ret : Int) (diags : List DiagRec) :
    (SQL_SUCCEEDED ret = true → SMSDODBC_NextRow ret diags = (1, [])) ∧
    (ret = SQL_NO_DATA → SMSDODBC_NextRow ret diags = (0, [])) ∧
    (SQL_SUCCEEDED ret = false → ret ≠ SQL_NO_DATA →
      (SMSDODBC_NextRow ret diags).1 = 0 ∧
        1 ≤ (SMSDODBC_NextRow ret diags).2.length) := by
  refine ⟨?_, ?_, ?_⟩
  · intro h
    simp [SMSDODBC_NextRow, h]
  · intro h
    subst h
    simp [SMSDODBC_NextRow, SQL_SUCCEEDED, SQL_NO_DATA, SQL_SUCCESS, SQL_SUCCESS_WITH_INFO]
  · intro h hne
    unfold SMSDODBC_NextRow
    rw [if_pos h, if_pos hne]
    exact ⟨rfl, one_le_logError_length _ _⟩

/-- Witness for C2: the three cases of `SMSDODBC_NextRow_spec` at the
concrete fetch codes 0 (success), 100 (`SQL_NO_DATA`) and -1 (`SQL_ERROR`). -/
theorem SMSDODBC_NextRow_spec_witness :
    SMSDODBC_NextRow 0 [] = (1, []) ∧
    SMSDODBC_NextRow 100 [] = (0, []) ∧
    ((SMSDODBC_NextRow (-1) []).1 = 0 ∧ 1 ≤ (SMSDODBC_NextRow (-1) []).2.length) :=
  ⟨(SMSDODBC_NextRow_spec 0 []).1 (by decide),
   (SMSDODBC_NextRow_spec 100 []).2.1 (by decide),
   (SMSDODBC_NextRow_spec (-1) []).2.2 (by decide) (by decide)⟩

/-- C3 counterexample: a successful numeric fetch of the value -1.  The
numeric accessor succeeds and the value is nonzero, so the claim demands
`SMSDODBC_GetBool` return true without a string fallback; the code compares
the accessor's result against the -1 sentinel, takes the string fallback
anyway, and (with the fetched text "-1") returns false. -/
theorem SMSDODBC_GetBool_numeric_minus_one_cex :
    SQL_SUCCEEDED (0 : Int) = true ∧
    (SMSDODBC_GetNumber ⟨0, -1⟩ []).1 = -1 ∧
    ((-1 : Int) ≠ 0) ∧
    (SMSDODBC_GetBool ⟨fun _ => none⟩ 0 ⟨0, -1⟩ ⟨0, 2, true, 0, "-1"⟩ []).usedStringFallback
        = true ∧
    (SMSDODBC_GetBool ⟨fun _ => none⟩ 0 ⟨0, -1⟩ ⟨0, 2, true, 0, "-1"⟩ []).result = false := by
  refine ⟨by decide, by decide, by decide, by decide, by decide⟩

/-- C3 amended: `SMSDODBC_GetBool` takes the string fallback exactly when
`SMSDODBC_GetNumber` returns the -1 sentinel (every failure, but also a
legitimately fetched -1), and whenever the numeric result differs from -1 it
returns the truthiness of that result. -/
theorem SMSDODBC_GetBool_fallback_iff (conn : OdbcConn) (field : Nat)
    (fn : FetchNum) (fs : FetchStr) (diags : List DiagRec) :
    ((SMSDODBC_GetBool conn field fn fs diags).usedStringFallback = true ↔
      (SMSDODBC_GetNumber fn diags).1 = -1) ∧
    ((SMSDODBC_GetNumber fn diags).1 ≠ -1 →
      (SMSDODBC_GetBool conn field fn fs diags).result =
        decide ((SMSDODBC_GetNumber fn diags).1 ≠ 0)) := by
  constructor
  · by_cases h : (SMSDODBC_GetNumber fn diags).1 = -1 <;> simp [SMSDODBC_GetBool, h]
  · intro h
    simp [SMSDODBC_GetBool, h]

/-- Witness for C3 amended: a successful numeric fetch of 5 yields true with
no string fallback. -/
theorem SMSDODBC_GetBool_fallback_iff_witness :
    (SMSDODBC_GetNumber ⟨0, 5⟩ []).1 ≠ -1 ∧
    (SMSDODBC_GetBool ⟨fun _ => none⟩ 0 ⟨0, 5⟩ ⟨0, 2, true, 0, "x"⟩ []).result =
      decide ((SMSDODBC_GetNumber ⟨0, 5⟩ []).1 ≠ 0) :=
  ⟨by decide,
   (SMSDODBC_GetBool_fallback_iff ⟨fun _ => none⟩ 0 ⟨0, 5⟩ ⟨0, 2, true, 0, "x"⟩ []).2
     (by decide)⟩

/-- C4: `SMSDODBC_QuoteString` wraps the input in double quotes escaping each
embedded double quote and backslash, and unescaping its output (strip the
surrounding quotes, collapse each backslash escape) recovers the input
exactly. -/
theorem SMSDODBC_QuoteString_roundtrip (s : List Char) :
    SMSDODBC_QuoteString s = '"' :: s.flatMap quoteChar ++ ['"'] ∧
    unescape (stripQuotes (SMSDODBC_QuoteString s)) = s :=
  ⟨rfl, by rw [stripQuotes_quoteString, unescape_flatMap]⟩

/-- C5 counterexample: when the statement-handle allocation inside
`SMSDODBC_Query` fails, Query returns its failure sentinel with no log entry
at all, so not every non-success status of the underlying API is logged. -/
theorem SMSDODBC_Query_alloc_failure_silent :
    (SMSDODBC_Query ⟨-1, 0, []⟩).1 = SQL_Error.SQL_FAIL ∧
    (SMSDODBC_Query ⟨-1, 0, []⟩).2 = [] := by
  refine ⟨by decide, by decide⟩

/-- C5 amended: on a non-success status of the underlying call the adapter
logs at least one entry, every entry it logs there carrying error severity,
before returning its failure sentinel, with these exceptions:
`SMSDODBC_NextRow` is silent on `SQL_NO_DATA`, `SMSDODBC_Query` is silent
when the statement-handle allocation fails, and `SMSDODBC_SeqID` is silent
on every path. -/
theorem SMSDODBC_failure_logging_amended :
    (∀ (f : FetchNum) (d : List DiagRec), SQL_SUCCEEDED f.ret = false →
        1 ≤ (SMSDODBC_GetNumber f d).2.length ∧
        ∀ e ∈ (SMSDODBC_GetNumber f d).2, e.sev = Severity.error) ∧
    (∀ (f : FetchDate) (d : List DiagRec), SQL_SUCCEEDED f.ret = false →
        1 ≤ (SMSDODBC_GetDate f d).2.length ∧
        ∀ e ∈ (SMSDODBC_GetDate f d).2, e.sev = Severity.error) ∧
    (∀ (conn : OdbcConn) (field : Nat) (f : FetchStr) (d : List DiagRec),
        field ≤ SMSD_ODBC_MAX_RETURN_STRINGS → SQL_SUCCEEDED f.probeRet = false →
        1 ≤ (SMSDODBC_GetString conn field f d).logs.length ∧
        ∀ e ∈ (SMSDODBC_GetString conn field f d).logs, e.sev = Severity.error) ∧
    (∀ (conn : OdbcConn) (field : Nat) (f : FetchStr) (d : List DiagRec),
        field ≤ SMSD_ODBC_MAX_RETURN_STRINGS → SQL_SUCCEEDED f.probeRet = true →
        f.probeSize ≠ SQL_NULL_DATA → f.allocOk = true → SQL_SUCCEEDED f.fetchRet = false →
        1 ≤ (SMSDODBC_GetString conn field f d).logs.length ∧
        ∀ e ∈ (SMSDODBC_GetString conn field f d).logs, e.sev = Severity.error) ∧
    (∀ (ret : Int) (d : List DiagRec), SQL_SUCCEEDED ret = false → ret ≠ SQL_NO_DATA →
        1 ≤ (SMSDODBC_NextRow ret d).2.length ∧
        ∀ e ∈ (SMSDODBC_NextRow ret d).2, e.sev = Severity.error) ∧
    (∀ (ret : Int) (d : List DiagRec), ret = SQL_NO_DATA → (SMSDODBC_NextRow ret d).2 = []) ∧
    (∀ (conn : OdbcConn) (o : ConnectOracle),
        (SMSDODBC_Connect conn o).status = SQL_Error.SQL_FAIL →
        1 ≤ (SMSDODBC_Connect conn o).logs.length ∧
        ∀ e ∈ (SMSDODBC_Connect conn o).logs, e.sev = Severity.error) ∧
    (∀ (o : QueryOracle), SQL_SUCCEEDED o.allocRet = true → SQL_SUCCEEDED o.execRet = false →
        1 ≤ (SMSDODBC_Query o).2.length ∧
        ∀ e ∈ (SMSDODBC_Query o).2, e.sev = Severity.error) ∧
    (∀ (o : QueryOracle), SQL_SUCCEEDED o.allocRet = false → (SMSDODBC_Query o).2 = []) ∧
    (∀ (o : SeqOracle) (hint : String), (SMSDODBC_SeqID o hint).logs = []) ∧
    (∀ (o : RowCountOracle) (d : List DiagRec), SQL_SUCCEEDED o.ret = false →
        1 ≤ (SMSDODBC_AffectedRows o d).2.length ∧
        ∀ e ∈ (SMSDODBC_AffectedRows o d).2, e.sev = Severity.error) := by
  refine ⟨?_, ?_, ?_, ?_, ?_, ?_, ?_, ?_, ?_, ?_, ?_⟩
  · intro f d h
    simp only [SMSDODBC_GetNumber, h]
    exact ⟨one_le_logError_length _ _, logError_sev _ _⟩
  · intro f d h
    simp only [SMSDODBC_GetDate, h]
    exact ⟨one_le_logError_length _ _, logError_sev _ _⟩
  · intro conn field f d hf h
    have hgt : ¬ field > SMSD_ODBC_MAX_RETURN_STRINGS := not_lt.mpr hf
    unfold SMSDODBC_GetString
    rw [if_neg hgt, if_pos h]
    exact ⟨one_le_logError_length _ _, logError_sev _ _⟩
  · intro conn field f d hf hp hn ha h
    have hgt : ¬ field > SMSD_ODBC_MAX_RETURN_STRINGS := not_lt.mpr hf
    have hp2 : ¬ SQL_SUCCEEDED f.probeRet = false := by simp [hp]
    have ha2 : ¬ f.allocOk = false := by simp [ha]
    unfold SMSDODBC_GetString
    rw [if_neg hgt, if_neg hp2, if_neg hn, if_neg ha2, if_pos h]
    exact ⟨one_le_logError_length _ _, logError_sev _ _⟩
  · intro ret d h hne
    unfold SMSDODBC_NextRow
    rw [if_pos h, if_pos hne]
    exact ⟨one_le_logError_length _ _, logError_sev _ _⟩
  · intro ret d h
    subst h
    simp [SMSDODBC_NextRow, SQL_SUCCEEDED, SQL_NO_DATA, SQL_SUCCESS, SQL_SUCCESS_WITH_INFO]
  · intro conn o h
    unfold SMSDODBC_Connect at h ⊢
    split_ifs at h ⊢ <;> exact ⟨one_le_logError_length _ _, logError_sev _ _⟩
  · intro o h1 h2
    have h1b : ¬ SQL_SUCCEEDED o.allocRet = false := by simp [h1]
    unfold SMSDODBC_Query
    rw [if_neg h1b, if_neg (by simp [h2])]
    exact ⟨one_le_logError_length _ _, logError_sev _ _⟩
  · intro o h
    unfold SMSDODBC_Query
    rw [if_pos h]
  · intro o hint
    unfold SMSDODBC_SeqID
    split_ifs <;> rfl
  · intro o d h
    unfold SMSDODBC_AffectedRows
    rw [if_pos h]
    exact ⟨one_le_logError_length _ _, logError_sev _ _⟩

/-- Witness for C5 amended: each logging case (log nonempty and all entries
at error severity) at a concrete failing return code, and each silent case
at its concrete input. -/
theorem SMSDODBC_failure_logging_amended_witness :
    (1 ≤ (SMSDODBC_GetNumber ⟨-1, 0⟩ []).2.length ∧
      ∀ e ∈ (SMSDODBC_GetNumber ⟨-1, 0⟩ []).2, e.sev = Severity.error) ∧
    (1 ≤ (SMSDODBC_GetDate ⟨-1, ⟨0, 0, 0, 0, 0, 0⟩⟩ []).2.length ∧
      ∀ e ∈ (SMSDODBC_GetDate ⟨-1, ⟨0, 0, 0, 0, 0, 0⟩⟩ []).2, e.sev = Severity.error) ∧
    (1 ≤ (SMSDODBC_GetString ⟨fun _ => none⟩ 0 ⟨-1, 0, true, 0, ""⟩ []).logs.length ∧
      ∀ e ∈ (SMSDODBC_GetString ⟨fun _ => none⟩ 0 ⟨-1, 0, true, 0, ""⟩ []).logs,
        e.sev = Severity.error) ∧
    (1 ≤ (SMSDODBC_GetString ⟨fun _ => none⟩ 0 ⟨0, 3, true, -1, ""⟩ []).logs.length ∧
      ∀ e ∈ (SMSDODBC_GetString ⟨fun _ => none⟩ 0 ⟨0, 3, true, -1, ""⟩ []).logs,
        e.sev = Severity.error) ∧
    (1 ≤ (SMSDODBC_NextRow (-1) []).2.length ∧
      ∀ e ∈ (SMSDODBC_NextRow (-1) []).2, e.sev = Severity.error) ∧
    (SMSDODBC_NextRow 100 []).2 = [] ∧
    (1 ≤ (SMSDODBC_Connect ⟨fun _ => none⟩ ⟨-1, 0, 0, 0, [], []⟩).logs.length ∧
      ∀ e ∈ (SMSDODBC_Connect ⟨fun _ => none⟩ ⟨-1, 0, 0, 0, [], []⟩).logs,
        e.sev = Severity.error) ∧
    (1 ≤ (SMSDODBC_Query ⟨0, -1, []⟩).2.length ∧
      ∀ e ∈ (SMSDODBC_Query ⟨0, -1, []⟩).2, e.sev = Severity.error) ∧
    (SMSDODBC_Query ⟨-1, 0, []⟩).2 = [] ∧
    (SMSDODBC_SeqID ⟨-1, 0, 0, 0, 0⟩ "x").logs = [] ∧
    (1 ≤ (SMSDODBC_AffectedRows ⟨-1, 0⟩ []).2.length ∧
      ∀ e ∈ (SMSDODBC_AffectedRows ⟨-1, 0⟩ []).2, e.sev = Severity.error) :=
  ⟨SMSDODBC_failure_logging_amended.1 ⟨-1, 0⟩ [] (by decide),
   SMSDODBC_failure_logging_amended.2.1 ⟨-1, ⟨0, 0, 0, 0, 0, 0⟩⟩ [] (by decide),
   SMSDODBC_failure_logging_amended.2.2.1 ⟨fun _ => none⟩ 0 ⟨-1, 0, true, 0, ""⟩ []
     (by decide) (by decide),
   SMSDODBC_failure_logging_amended.2.2.2.1 ⟨fun _ => none⟩ 0 ⟨0, 3, true, -1, ""⟩ []
     (by decide) (by decide) (by decide) (by decide) (by decide),
   SMSDODBC_failure_logging_amended.2.2.2.2.1 (-1) [] (by decide) (by decide),
   SMSDODBC_failure_logging_amended.2.2.2.2.2.1 100 [] (by decide),
   SMSDODBC_failure_logging_amended.2.2.2.2.2.2.1 ⟨fun _ => none⟩ ⟨-1, 0, 0, 0, [], []⟩
     (by decide),
   SMSDODBC_failure_logging_amended.2.2.2.2.2.2.2.1 ⟨0, -1, []⟩ (by decide) (by decide),
   SMSDODBC_failure_logging_amended.2.2.2.2.2.2.2.2.1 ⟨-1, 0, []⟩ (by decide),
   SMSDODBC_failure_logging_amended.2.2.2.2.2.2.2.2.2.1 ⟨-1, 0, 0, 0, 0⟩ "x",
   SMSDODBC_failure_logging_amended.2.2.2.2.2.2.2.2.2.2 ⟨-1, 0⟩ [] (by decide)⟩

/-- C6: the claim says a successfully fetched timestamp converts to the
local time of its calendar fields, and a failed fetch returns -1.  The code
copies the calendar year into `tm_year` (years since 1900) and the 1-based
month into `tm_mon` (months since January), so the converted value is the
one for year 1900 + year and the following month: at 2011-06-15 00:00:00 the
code produces the time value of 3911-07-15, not of 2011-06-15.  The failure
branch does return -1. -/
theorem SMSDODBC_GetDate_mismatch :
    (SMSDODBC_GetDate ⟨0, ⟨2011, 6, 15, 0, 0, 0⟩⟩ []).1 ≠
        civilEpoch ⟨2011, 6, 15, 0, 0, 0⟩ ∧
    (SMSDODBC_GetDate ⟨0, ⟨2011, 6, 15, 0, 0, 0⟩⟩ []).1 =
        civilEpoch ⟨3911, 7, 15, 0, 0, 0⟩ ∧
    (SMSDODBC_GetDate ⟨-1, ⟨2011, 6, 15, 0, 0, 0⟩⟩ []).1 = -1 := by
  refine ⟨by decide, by decide, by decide⟩

/-- C7: `SMSDODBC_GetNumber` returns the fetched value on every successful
fetch and the -1 sentinel on every failed fetch, and a successful fetch of
-1 also yields -1, so the sentinel is ambiguous. -/
theorem SMSDODBC_GetNumber_spec :
    (∀ (f : FetchNum) (d : List DiagRec), SQL_SUCCEEDED f.ret = true →
        SMSDODBC_GetNumber f d = (f.value, [])) ∧
    (∀ (f : FetchNum) (d : List DiagRec), SQL_SUCCEEDED f.ret = false →
        (SMSDODBC_GetNumber f d).1 = -1) ∧
    (∃ f : FetchNum, SQL_SUCCEEDED f.ret = true ∧ (SMSDODBC_GetNumber f []).1 = -1) := by
  refine ⟨?_, ?_, ⟨⟨0, -1⟩, by decide, by decide⟩⟩
  · intro f d h
    simp [SMSDODBC_GetNumber, h]
  · intro f d h
    simp [SMSDODBC_GetNumber, h]

/-- Witness for C7: a successful fetch of 7 returns 7 and a failed fetch
returns -1. -/
theorem SMSDODBC_GetNumber_spec_witness :
    SMSDODBC_GetNumber ⟨0, 7⟩ [] = (7, []) ∧ (SMSDODBC_GetNumber ⟨-1, 7⟩ []).1 = -1 :=
  ⟨SMSDODBC_GetNumber_spec.1 ⟨0, 7⟩ [] (by decide),
   SMSDODBC_GetNumber_spec.2.1 ⟨-1, 7⟩ [] (by decide)⟩

/-- C8: `SMSDODBC_SeqID` issues at most the fixed text `SELECT @@IDENTITY`
and never a text depending on its hint argument (its output is independent
of the hint), returns 0 whenever any step fails, and frees the statement
handle on every path on which the allocation succeeded. -/
theorem SMSDODBC_SeqID_spec :
    (∀ (o : SeqOracle) (a b : String), SMSDODBC_SeqID o a = SMSDODBC_SeqID o b) ∧
    (∀ (o : SeqOracle) (a : String),
        (SMSDODBC_SeqID o a).queries = [] ∨
        (SMSDODBC_SeqID o a).queries = ["SELECT @@IDENTITY"]) ∧
    (∀ (o : SeqOracle) (a : String),
        (SQL_SUCCEEDED o.allocRet = false ∨ SQL_SUCCEEDED o.execRet = false ∨
          SQL_SUCCEEDED o.fetchRet = false ∨ SQL_SUCCEEDED o.dataRet = false) →
        (SMSDODBC_SeqID o a).result = 0) ∧
    (∀ (o : SeqOracle) (a : String), SQL_SUCCEEDED o.allocRet = true →
        (SMSDODBC_SeqID o a).stmtFreed = true) := by
  refine ⟨fun o a b => rfl, ?_, ?_, ?_⟩
  · intro o a
    unfold SMSDODBC_SeqID
    split_ifs <;> simp
  · intro o a h
    unfold SMSDODBC_SeqID
    split_ifs with h1 h2 h3 h4
    · rfl
    · rfl
    · rfl
    · rfl
    · rcases h with h | h | h | h <;> simp_all
  · intro o a h
    unfold SMSDODBC_SeqID
    split_ifs <;> simp_all

/-- Witness for C8: with the exec step failing, the result is 0 and the
statement handle is freed. -/
theorem SMSDODBC_SeqID_spec_witness :
    (SMSDODBC_SeqID ⟨0, -1, 0, 0, 5⟩ "a").result = 0 ∧
    (SMSDODBC_SeqID ⟨0, -1, 0, 0, 5⟩ "a").stmtFreed = true :=
  ⟨SMSDODBC_SeqID_spec.2.2.1 ⟨0, -1, 0, 0, 5⟩ "a" (Or.inr (Or.inl (by decide))),
   SMSDODBC_SeqID_spec.2.2.2 ⟨0, -1, 0, 0, 5⟩ "a" (by decide)⟩

/-- C9: `SMSDODBC_Connect` empties every slot of the return-string array as
its first action, before any handle allocation, and leaves them all empty on
every outcome; `SMSDODBC_Free` resets every slot to empty and releases
exactly the buffers that were allocated. -/
theorem SMSDODBC_Connect_Free_retstr_spec :
    (∀ (conn : OdbcConn) (o : ConnectOracle) (i : Nat),
        i < SMSD_ODBC_MAX_RETURN_STRINGS → (SMSDODBC_Connect conn o).conn.retstr i = none) ∧
    (∀ (conn : OdbcConn) (o : ConnectOracle), ∃ rest,
        (SMSDODBC_Connect conn o).steps = ConnStep.initRetstr :: rest ∧
        ConnStep.initRetstr ∉ rest) ∧
    (∀ (conn : OdbcConn) (i : Nat),
        i < SMSD_ODBC_MAX_RETURN_STRINGS → (SMSDODBC_Free conn).conn.retstr i = none) ∧
    (∀ (conn : OdbcConn) (i : Nat),
        i ∈ (SMSDODBC_Free conn).freed ↔
          i < SMSD_ODBC_MAX_RETURN_STRINGS ∧ (conn.retstr i).isSome = true) := by
  refine ⟨?_, ?_, ?_, ?_⟩
  · intro conn o i hi
    unfold SMSDODBC_Connect
    split_ifs <;> simp [hi]
  · intro conn o
    unfold SMSDODBC_Connect
    split_ifs <;> exact ⟨_, rfl, by decide⟩
  · intro conn i hi
    simp [SMSDODBC_Free, hi]
  · intro conn i
    simp [SMSDODBC_Free, List.mem_filter, List.mem_range]

/-- Witness for C9: starting from a state whose slots all hold a buffer,
slot 0 is empty after Connect and after Free. -/
theorem SMSDODBC_Connect_Free_retstr_spec_witness :
    (SMSDODBC_Connect ⟨fun _ => some "x"⟩ ⟨0, 0, 0, 0, [], []⟩).conn.retstr 0 = none ∧
    (SMSDODBC_Free ⟨fun _ => some "x"⟩).conn.retstr 0 = none :=
  ⟨SMSDODBC_Connect_Free_retstr_spec.1 ⟨fun _ => some "x"⟩ ⟨0, 0, 0, 0, [], []⟩ 0 (by decide),
   SMSDODBC_Connect_Free_retstr_spec.2.2.1 ⟨fun _ => some "x"⟩ 0 (by decide)⟩

/-- C10: `SMSDODBC_FreeResult` frees only the statement handle of the given
result and leaves the connection state — in particular every return-string
slot — unchanged, so the slot still holds the string `SMSDODBC_GetString`
last returned for that field. -/
theorem SMSDODBC_FreeResult_frame :
    (∀ (conn : OdbcConn) (res : SQLResult),
        (SMSDODBC_FreeResult conn res).1 = conn ∧
        (SMSDODBC_FreeResult conn res).2.stmtFreed = true) ∧
    (∀ (conn : OdbcConn) (field : Nat) (f : FetchStr) (d : List DiagRec) (res : SQLResult),
        (SMSDODBC_GetString conn field f d).result ≠ none →
        (SMSDODBC_FreeResult (SMSDODBC_GetString conn field f d).conn res).1.retstr field =
          (SMSDODBC_GetString conn field f d).result) := by
  refine ⟨fun conn res => ⟨rfl, rfl⟩, ?_⟩
  intro conn field f d res h
  unfold SMSDODBC_FreeResult
  unfold SMSDODBC_GetString at h ⊢
  split_ifs at h ⊢ <;> simp_all

/-- Witness for C10: after a successful string fetch of "Alice" into slot 0,
FreeResult leaves slot 0 holding "Alice". -/
theorem SMSDODBC_FreeResult_frame_witness :
    (SMSDODBC_GetString ⟨fun _ => none⟩ 0 ⟨0, 3, true, 0, "Alice"⟩ []).result ≠ none ∧
    (SMSDODBC_FreeResult (SMSDODBC_GetString ⟨fun _ => none⟩ 0 ⟨0, 3, true, 0, "Alice"⟩ []).conn
        ⟨false⟩).1.retstr 0 =
      (SMSDODBC_GetString ⟨fun _ => none⟩ 0 ⟨0, 3, true, 0, "Alice"⟩ []).result :=
  ⟨by decide,
   SMSDODBC_FreeResult_frame.2 ⟨fun _ => none⟩ 0 ⟨0, 3, true, 0, "Alice"⟩ [] ⟨false⟩
     (by decide)⟩
